import Mathlib

/-!
Verification development for the Pingmonitor monitoring engine
(src/core/monitoring_engine.py and src/services/performance_service.py).

The Python source is shallowly embedded: mutable engine state becomes
explicit state records, datetimes become integer seconds, floats become
rationals, and the optional dynamic attributes of a Device (ping_status,
web_status, and so on) become Option fields where absence means the
attribute was never set.
-/

namespace Pingmonitor

/-- Check kinds, from the CheckType enum in src/models/check_result.py. -/
inductive CheckType
  | ping
  | http
  | https
  | ssh
  | dns
  | snmp
  | tcp
  | udp
deriving DecidableEq, Repr

/-- String value of a check kind, the .value attribute of the Python enum. -/
def CheckType.value : CheckType → String
  | .ping => "ping"
  | .http => "http"
  | .https => "https"
  | .ssh => "ssh"
  | .dns => "dns"
  | .snmp => "snmp"
  | .tcp => "tcp"
  | .udp => "udp"

/-- Values taken by the ping_status and web_status device attributes
(the engine only ever assigns the strings success and failed). -/
inductive PWStatus
  | success
  | failed
deriving DecidableEq, Repr

/-- Values taken by current_status (unknown, online, degraded, offline). -/
inductive DevStatus
  | unknown
  | online
  | degraded
  | offline
deriving DecidableEq, Repr

/-- The Device model restricted to the fields read or written by the
monitoring engine.  Optional fields model Python attributes that may not
have been set yet (getattr with a None default, or hasattr guards). -/
structure Device where
  id : Nat
  ip_address : String
  name : String
  enabled : Bool
  device_type : String
  ping_enabled : Bool
  http_enabled : Bool
  https_enabled : Bool
  ssh_enabled : Bool
  dns_enabled : Bool
  snmp_enabled : Bool
  check_interval : Int
  timeout : Int
  alert_enabled : Bool
  alert_on_down : Bool
  alert_on_up : Bool
  alert_on_degraded : Bool
  current_status : Option DevStatus
  ping_status : Option PWStatus
  web_status : Option PWStatus
  total_checks : Nat
  successful_checks : Nat
  failed_checks : Nat
  uptime_percentage : ℚ
  response_time : ℚ
  last_check_time : Option Int
  last_status_change : Option Int
  requires_manual_intervention : Bool
  recovery_success : Bool
  recovery_results : List (Int × Bool × String)
deriving DecidableEq, Repr

/-- The dict produced by executing one check, as assembled by
MonitoringEngine.execute_check and consumed by process_check_result.
Timestamps are integer seconds, response times rational milliseconds. -/
structure ResultDict where
  success : Bool
  response_time : ℚ
  check_type : CheckType
  device_id : Nat
  timestamp : Int
  error : Option String
  status_code : Option Nat
deriving DecidableEq, Repr

/-- MonitoringEngine._determine_device_status: derive current status from
ping_status and web_status.  Ping failure always yields offline; ping
success yields degraded or online depending on the web signal when a web
check is enabled, keeping the previous status while the web signal is
unknown; otherwise the previous status (default unknown) is kept. -/
def determine_device_status (device : Device) : DevStatus :=
  match device.ping_status with
  | some .failed => .offline
  | some .success =>
      if device.http_enabled || device.https_enabled then
        match device.web_status with
        | some .failed => .degraded
        | some .success => .online
        | none => device.current_status.getD .unknown
      else
        .online
  | none => device.current_status.getD .unknown

/-- Lookup in an association list, modelling a Python dict read. -/
def alistGet {α β : Type} [DecidableEq α] : List (α × β) → α → Option β
  | [], _ => none
  | (a, b) :: t, k => if a = k then some b else alistGet t k

/-- Update or insert in an association list, modelling a dict write. -/
def alistSet {α β : Type} [DecidableEq α] : List (α × β) → α → β → List (α × β)
  | [], k, v => [(k, v)]
  | (a, b) :: t, k, v => if a = k then (k, v) :: t else (a, b) :: alistSet t k v

/-- State of services.performance_service.BatchDatabaseWriter.  The field
written records the batches flushed to the store so far (the observable
bulk inserts); times are rational seconds as in time.time(). -/
structure BatchWriterState where
  batch_size : Nat
  flush_interval : ℚ
  pending_results : List ResultDict
  written : List (List ResultDict)
  last_flush : ℚ
  total_batches : Nat
  total_records : Nat
deriving DecidableEq, Repr

/-- BatchDatabaseWriter._flush: write the pending results as one batch and
clear the buffer; a no-op on an empty buffer. -/
def BatchWriterState.flush (st : BatchWriterState) (now : ℚ) : BatchWriterState :=
  if st.pending_results = [] then st
  else
    { st with
        written := st.written ++ [st.pending_results]
        total_batches := st.total_batches + 1
        total_records := st.total_records + st.pending_results.length
        pending_results := []
        last_flush := now }

/-- BatchDatabaseWriter.add_check_result: append to the buffer and flush
when the buffer has reached the batch size. -/
def BatchWriterState.add_check_result (st : BatchWriterState) (now : ℚ)
    (result : ResultDict) : BatchWriterState :=
  let st := { st with pending_results := st.pending_results ++ [result] }
  if st.batch_size ≤ st.pending_results.length then st.flush now else st

/-- One pass of the BatchDatabaseWriter._auto_flush_loop body at time now:
flush only when the flush interval has elapsed and the buffer is
nonempty. -/
def BatchWriterState.auto_flush_tick (st : BatchWriterState) (now : ℚ) :
    BatchWriterState :=
  if st.flush_interval ≤ now - st.last_flush ∧ st.pending_results ≠ [] then
    st.flush now
  else st

/-- BatchDatabaseWriter.force_flush: flush now if anything is pending. -/
def BatchWriterState.force_flush (st : BatchWriterState) (now : ℚ) :
    BatchWriterState :=
  if st.pending_results ≠ [] then st.flush now else st

/-- Enqueue a list of timed results one by one via add_check_result. -/
def BatchWriterState.add_all (st : BatchWriterState)
    (rs : List (ℚ × ResultDict)) : BatchWriterState :=
  rs.foldl (fun s p => s.add_check_result p.1 p.2) st

/-- Python min over a list (0 on an empty list, never used there). -/
def listMin : List ℚ → ℚ
  | [] => 0
  | x :: xs => xs.foldl min x

/-- Python max over a list (0 on an empty list, never used there). -/
def listMax : List ℚ → ℚ
  | [] => 0
  | x :: xs => xs.foldl max x

/-- statistics.mean: sum divided by length. -/
def listMean (l : List ℚ) : ℚ :=
  l.sum / l.length

/-- Python sorted on latencies: ascending order. -/
def sortedWindow (times : List ℚ) : List ℚ :=
  List.insertionSort (fun a b => a ≤ b) times

/-- The i-th of the n-quantiles of already sorted data, exactly as
computed by CPython statistics.quantiles with the default exclusive
method: rescale i to ld + 1 slots, clamp the integer index j to
1 .. ld - 1, and interpolate with the exact integer remainder delta. -/
def quantileExc (data : List ℚ) (n i : ℕ) : ℚ :=
  let ld := data.length
  let j0 := i * (ld + 1) / n
  let j := if j0 < 1 then 1 else if ld - 1 < j0 then ld - 1 else j0
  let delta : ℤ := (i * (ld + 1) : ℤ) - (j * n : ℤ)
  (data.getD (j - 1) 0 * ((n : ℚ) - (delta : ℚ))
    + data.getD j 0 * (delta : ℚ)) / (n : ℚ)

/-- The dict returned by PerformanceMetrics.get_percentiles. -/
structure Percentiles where
  p50 : ℚ
  p95 : ℚ
  p99 : ℚ
  min : ℚ
  max : ℚ
  avg : ℚ
deriving DecidableEq, Repr

/-- PerformanceMetrics.get_percentiles on a latency window: zeros on an
empty window; otherwise sort, then p50 is the exclusive median when at
least 2 samples exist (else the only sample), p95 the 19th of the
20-quantiles when at least 20 samples exist (else the last sample), and
p99 the 99th of the 100-quantiles when at least 100 samples exist (else
the last sample). -/
def get_percentiles (times : List ℚ) : Percentiles :=
  if times.isEmpty then ⟨0, 0, 0, 0, 0, 0⟩
  else
    let s := sortedWindow times
    { p50 := if 2 ≤ s.length then quantileExc s 2 1 else s.getD 0 0
      p95 := if 20 ≤ s.length then quantileExc s 20 19 else s.getLastD 0
      p99 := if 100 ≤ s.length then quantileExc s 100 99 else s.getLastD 0
      min := listMin s
      max := listMax s
      avg := listMean s }

/-- State of PerformanceMetrics: per check-kind latency windows (deque
with maxlen window_size) and cumulative check and success counts, keyed
by the string value of the check kind. -/
structure MetricsState where
  window_size : Nat
  response_times : List (String × List ℚ)
  check_counts : List (String × Nat)
  success_counts : List (String × Nat)
deriving DecidableEq, Repr

/-- PerformanceMetrics.record_check: append the latency to the window of
that kind, evicting from the front past the window size, and bump the
cumulative counters. -/
def MetricsState.record_check (met : MetricsState) (check_type : String)
    (response_time : ℚ) (success : Bool) : MetricsState :=
  let w := (alistGet met.response_times check_type).getD [] ++ [response_time]
  let w := if met.window_size < w.length then w.drop (w.length - met.window_size) else w
  { met with
      response_times := alistSet met.response_times check_type w
      check_counts :=
        alistSet met.check_counts check_type
          ((alistGet met.check_counts check_type).getD 0 + 1)
      success_counts :=
        if success then
          alistSet met.success_counts check_type
            ((alistGet met.success_counts check_type).getD 0 + 1)
        else met.success_counts }

/-- The exposed per-kind percentiles: get_percentiles applied to the
stored window of that check kind (empty when the kind is unknown). -/
def MetricsState.get_percentiles_of (met : MetricsState) (check_type : String) :
    Percentiles :=
  get_percentiles ((alistGet met.response_times check_type).getD [])

/-- The percentile rule as the specification words it: sort the window
and index by the ceiling of n times the percentile, minus one, clamped
to the window. -/
def specPercentileRule (times : List ℚ) (p : ℚ) : ℚ :=
  let s := sortedWindow times
  let idx := min (Nat.ceil ((s.length : ℚ) * p) - 1) (s.length - 1)
  s.getD idx 0

/-- A monitoring check task, as enqueued on the priority queue. -/
structure CheckTask where
  device : Device
  check_type : CheckType
  priority : Nat
deriving DecidableEq, Repr

/-- MonitoringEngine._calculate_priority: offline devices first, then
degraded, then everything else. -/
def calculate_priority (device : Device) : Nat :=
  if device.current_status = some .offline then 1
  else if device.current_status = some .degraded then 3
  else 5

/-- MonitoringEngine._schedule_device_checks: one task per enabled check
kind, in the fixed source order, all at the priority derived from the
current device status. -/
def schedule_device_checks (device : Device) : List CheckTask :=
  let priority := calculate_priority device
  (if device.ping_enabled then [⟨device, .ping, priority⟩] else []) ++
  (if device.http_enabled then [⟨device, .http, priority⟩] else []) ++
  (if device.https_enabled then [⟨device, .https, priority⟩] else []) ++
  (if device.ssh_enabled then [⟨device, .ssh, priority⟩] else []) ++
  (if device.dns_enabled then [⟨device, .dns, priority⟩] else []) ++
  (if device.snmp_enabled then [⟨device, .snmp, priority⟩] else [])

/-- The per-device body of one pass of MonitoringEngine._scheduler_loop:
skip disabled devices, otherwise enqueue all enabled checks when the
device has no recorded last check time or its interval has elapsed, and
advance the recorded last check time. -/
def scheduler_tick_device (lct : List (Nat × Int)) (now : Int)
    (device : Device) : List CheckTask × List (Nat × Int) :=
  if ¬ device.enabled then ([], lct)
  else
    match alistGet lct device.id with
    | none => (schedule_device_checks device, alistSet lct device.id now)
    | some last =>
        if device.check_interval ≤ now - last then
          (schedule_device_checks device, alistSet lct device.id now)
        else ([], lct)

/-- MonitoringEngine.force_immediate_check for a single device id: rewind
the recorded last check time one hour into the past, when the id is
known. -/
def force_immediate_check (lct : List (Nat × Int)) (device_id : Nat)
    (now : Int) : List (Nat × Int) :=
  match alistGet lct device_id with
  | some _ => alistSet lct device_id (now - 3600)
  | none => lct

/-- Behaviour of one registered probe on a device: either a returned
result dict (success flag, optional error and status code) or a raised
exception carrying its message. -/
inductive ProbeOutcome
  | ok (success : Bool) (error : Option String) (status_code : Option Nat)
  | exn (msg : String)
deriving DecidableEq, Repr

/-- Ambient measurements of one check execution: the wall clock at
completion and the measured elapsed milliseconds. -/
structure ExecEnv where
  now : Int
  elapsed_ms : ℚ
deriving DecidableEq, Repr

/-- MonitoringEngine._execute_check: look up the probe registered for the
task kind and run it.  A missing probe (the raised ValueError) and any
exception from the probe are caught and turned into a failed result dict
carrying the error message, the device id, the check kind, a timestamp
and the elapsed time; a returned dict is augmented with the same
metadata. -/
def execute_check (services : CheckType → Option (Device → ProbeOutcome))
    (env : ExecEnv) (task : CheckTask) : ResultDict :=
  match services task.check_type with
  | none =>
      { success := false
        error := some ("No check service registered for " ++ task.check_type.value)
        response_time := env.elapsed_ms
        check_type := task.check_type
        device_id := task.device.id
        timestamp := env.now
        status_code := none }
  | some svc =>
      match svc task.device with
      | .exn msg =>
          { success := false
            error := some msg
            response_time := env.elapsed_ms
            check_type := task.check_type
            device_id := task.device.id
            timestamp := env.now
            status_code := none }
      | .ok success error status_code =>
          { success := success
            error := error
            status_code := status_code
            response_time := env.elapsed_ms
            check_type := task.check_type
            device_id := task.device.id
            timestamp := env.now }

/-- A delayed action registered through MonitoringEngine._schedule_timer.
The only action scheduled from the recovery path is the closure calling
force_immediate_check on one device id. -/
inductive TimerAction
  | force_check (device_id : Nat)
deriving DecidableEq, Repr

/-- Running a scheduled action against the last-check-time map: the
re-check closure performs force_immediate_check at firing time. -/
def TimerAction.run : TimerAction → List (Nat × Int) → Int → List (Nat × Int)
  | .force_check device_id, lct, now => force_immediate_check lct device_id now

/-- One tracked timer: its delay in seconds and its action. -/
structure TimerEntry where
  delay : ℚ
  action : TimerAction
deriving DecidableEq, Repr

/-- The engine-level statistics dict. -/
structure Statistics where
  total_checks : Nat
  successful_checks : Nat
  failed_checks : Nat
deriving DecidableEq, Repr

/-- The mutable engine state touched by result processing and recovery:
statistics, the per-IP recovery-attempt map, the tracked timers and the
batch writer. -/
structure EngineState where
  statistics : Statistics
  recovery_attempts : List (String × Int)
  timers : List TimerEntry
  batch : BatchWriterState
deriving DecidableEq, Repr

/-- Ambient clocks and collaborators of the result pipeline: the
datetime clock in seconds, the wall clock for the batch writer, whether
an auto-recovery service is configured, and its attempt_recovery
call returning success and message. -/
structure RecoveryEnv where
  now : Int
  wall : ℚ
  recovery_configured : Bool
  attempt_recovery : String → String → Bool × String

/-- The cooldown test at the top of _attempt_auto_recovery: proceed when
no attempt is recorded for the device IP, or when the recorded attempt is
at least 300 seconds old. -/
def recovery_cooldown_ok (attempts : List (String × Int)) (key : String)
    (now : Int) : Bool :=
  match alistGet attempts key with
  | some last_attempt => decide (300 ≤ now - last_attempt)
  | none => true

/-- MonitoringEngine._attempt_auto_recovery: under cooldown, return with
no collaborator call; otherwise record the attempt time for the device
IP, call attempt_recovery once, store the outcome on the device, and on
success clear requires_manual_intervention and schedule one 30 second
re-check timer, while on failure set requires_manual_intervention.  The
third component lists the collaborator calls made. -/
def attempt_auto_recovery (env : RecoveryEnv) (st : EngineState)
    (device : Device) : EngineState × Device × List (String × String) :=
  if recovery_cooldown_ok st.recovery_attempts device.ip_address env.now then
    let st1 := { st with
      recovery_attempts := alistSet st.recovery_attempts device.ip_address env.now }
    let res := env.attempt_recovery device.ip_address device.name
    let device1 := { device with
      recovery_results := device.recovery_results ++ [(env.now, res.1, res.2)] }
    if res.1 then
      let device2 := { device1 with
        recovery_success := true
        requires_manual_intervention := false }
      let st2 := { st1 with
        timers := st1.timers ++ [⟨30, TimerAction.force_check device.id⟩] }
      (st2, device2, [(device.ip_address, device.name)])
    else
      let device2 := { device1 with
        recovery_success := false
        requires_manual_intervention := true }
      (st1, device2, [(device.ip_address, device.name)])
  else (st, device, [])

/-- MonitoringEngine._handle_status_change: stamp the status change time
and, when entering degraded from a non-degraded state with SSH enabled
and a recovery service configured, run the auto-recovery attempt.  Alert
and status-change callbacks carry no engine state and are not modelled. -/
def handle_status_change (env : RecoveryEnv) (st : EngineState)
    (device : Device) (old_status : Option DevStatus)
    (new_status : DevStatus) :
    EngineState × Device × List (String × String) :=
  let device1 := { device with last_status_change := some env.now }
  if new_status = .degraded ∧ old_status ≠ some .degraded then
    if device1.ssh_enabled ∧ env.recovery_configured then
      attempt_auto_recovery env st device1
    else (st, device1, [])
  else (st, device1, [])

/-- The first step of _process_check_result on the device: a ping result
sets ping_status, an http or https result sets web_status, every other
kind leaves both untouched. -/
def update_check_statuses (device : Device) (result : ResultDict) : Device :=
  match result.check_type with
  | .ping =>
      { device with ping_status := some (if result.success then .success else .failed) }
  | .http =>
      { device with web_status := some (if result.success then .success else .failed) }
  | .https =>
      { device with web_status := some (if result.success then .success else .failed) }
  | _ => device

/-- The tail of _process_check_result on the device: store the derived
status and check metadata, bump total_checks, run the edge-triggered
manual-intervention rule on the ping and web signals, bump the success
or failure counter, and recompute uptime_percentage. -/
def finalize_device (new_status : DevStatus) (result : ResultDict)
    (device2 : Device) : Device :=
  let device3 := { device2 with
      current_status := some new_status
      last_check_time := some result.timestamp
      response_time := result.response_time
      total_checks := device2.total_checks + 1 }
  let device4 :=
    if device3.ping_status.isSome ∧ device3.web_status.isSome then
      if device3.ping_status = some .failed ∧ device3.web_status = some .failed then
        if ¬ device3.requires_manual_intervention then
          { device3 with requires_manual_intervention := true }
        else device3
      else if device3.ping_status = some .success ∨ device3.web_status = some .success then
        if device3.requires_manual_intervention then
          { device3 with requires_manual_intervention := false }
        else device3
      else device3
    else device3
  let device5 :=
    if result.success then
      { device4 with successful_checks := device4.successful_checks + 1 }
    else
      { device4 with failed_checks := device4.failed_checks + 1 }
  { device5 with
      uptime_percentage :=
        if 0 < device5.total_checks then
          (device5.successful_checks : ℚ) / (device5.total_checks : ℚ) * 100
        else 100 }

/-- The statistics update at the top of _process_check_result: bump the
total and exactly one of the success or failure counters. -/
def updated_statistics (stats : Statistics) (success : Bool) : Statistics :=
  let stats1 := { stats with total_checks := stats.total_checks + 1 }
  if success then
    { stats1 with successful_checks := stats1.successful_checks + 1 }
  else
    { stats1 with failed_checks := stats1.failed_checks + 1 }

/-- The status derivation and change handling in _process_check_result:
compare the derived status against the stored one and run
_handle_status_change exactly on a change. -/
def status_change_step (env : RecoveryEnv) (st : EngineState)
    (device1 : Device) : EngineState × Device × List (String × String) :=
  let old_status := device1.current_status
  let new_status := determine_device_status device1
  if some new_status ≠ old_status then
    handle_status_change env st device1 old_status new_status
  else (st, device1, [])

/-- MonitoringEngine._process_check_result: bump engine statistics,
record the latency sample, queue the result on the batch writer, update
ping or web status from the completed kind, derive the new status and
handle a change (possibly triggering auto-recovery), then finalize the
device fields.  The database mirror write has no engine-state effect and
the on_check_complete callbacks carry no state; both are not modelled. -/
def process_check_result (env : RecoveryEnv) (st : EngineState)
    (met : MetricsState) (device : Device) (result : ResultDict) :
    EngineState × MetricsState × Device × List (String × String) :=
  let met1 := met.record_check result.check_type.value result.response_time
    result.success
  let st2 := { st with
    statistics := updated_statistics st.statistics result.success
    batch := st.batch.add_check_result env.wall result }
  let device1 := update_check_statuses device result
  let r := status_change_step env st2 device1
  (r.1, met1, finalize_device (determine_device_status device1) result r.2.1,
    r.2.2)

end Pingmonitor

namespace Pingmonitor

/-- Claim C1: for every device, if ping_status is failed then
determine_device_status returns offline, regardless of web_status and of
whether web checks are enabled. -/
theorem claim1_ping_failed_offline (d : Device)
    (h : d.ping_status = some PWStatus.failed) :
    determine_device_status d = DevStatus.offline := by
  unfold determine_device_status
  rw [h]

/-- A concrete device used to instantiate witness theorems. -/
def sampleDevice : Device :=
  { id := 7
    ip_address := "10.0.0.7"
    name := "dev7"
    enabled := true
    device_type := "generic"
    ping_enabled := true
    http_enabled := true
    https_enabled := false
    ssh_enabled := true
    dns_enabled := false
    snmp_enabled := false
    check_interval := 60
    timeout := 5
    alert_enabled := true
    alert_on_down := true
    alert_on_up := true
    alert_on_degraded := true
    current_status := some .online
    ping_status := some .failed
    web_status := some .success
    total_checks := 10
    successful_checks := 9
    failed_checks := 1
    uptime_percentage := 90
    response_time := 12
    last_check_time := some 1000
    last_status_change := some 900
    requires_manual_intervention := false
    recovery_success := false
    recovery_results := [] }

/-- Witness for claim C1: the sample device has a failed ping and a
successful web status together with web checks enabled, yet its derived
status is offline. -/
theorem claim1_ping_failed_offline_witness :
    sampleDevice.ping_status = some PWStatus.failed ∧
      determine_device_status sampleDevice = DevStatus.offline :=
  ⟨rfl, claim1_ping_failed_offline sampleDevice rfl⟩

/-- Claim C2: with ping success, the web signal decides the status when a
web check is enabled (failed gives degraded, success gives online, unset
keeps the previous status defaulting to unknown), and with no web check
enabled the status is online. -/
theorem claim2_ping_success_web_rule (d : Device)
    (h : d.ping_status = some PWStatus.success) :
    ((d.http_enabled || d.https_enabled) = true →
        (d.web_status = some PWStatus.failed →
            determine_device_status d = DevStatus.degraded) ∧
        (d.web_status = some PWStatus.success →
            determine_device_status d = DevStatus.online) ∧
        (d.web_status = none →
            determine_device_status d = d.current_status.getD DevStatus.unknown)) ∧
      ((d.http_enabled || d.https_enabled) = false →
        determine_device_status d = DevStatus.online) := by
  unfold determine_device_status
  rw [h]
  constructor
  · intro hweb
    rw [hweb]
    refine ⟨fun hw => ?_, fun hw => ?_, fun hw => ?_⟩ <;> simp [hw]
  · intro hweb
    rw [hweb]
    simp

/-- Witness for claim C2: a device with ping success, http enabled and a
failed web signal derives the degraded status. -/
theorem claim2_ping_success_web_rule_witness :
    ({ sampleDevice with
        ping_status := some .success
        web_status := some .failed } : Device).ping_status
          = some PWStatus.success ∧
      determine_device_status
        { sampleDevice with
            ping_status := some .success
            web_status := some .failed } = DevStatus.degraded := by
  refine ⟨rfl, ?_⟩
  exact ((claim2_ping_success_web_rule _ rfl).1 (by decide)).1 rfl

/-- While the buffer stays strictly below the batch size, add_check_result
only appends: no flush fires and the written history is untouched. -/
theorem add_all_below_threshold (rs : List (ℚ × ResultDict))
    (st : BatchWriterState)
    (h : st.pending_results.length + rs.length < st.batch_size) :
    st.add_all rs
      = { st with pending_results := st.pending_results ++ rs.map Prod.snd } := by
  induction rs generalizing st with
  | nil => simp [BatchWriterState.add_all]
  | cons hd tl ih =>
      have hlt : ¬ st.batch_size ≤ st.pending_results.length + 1 := by
        simp only [List.length_cons] at h
        omega
      have hstep : st.add_check_result hd.1 hd.2
          = { st with pending_results := st.pending_results ++ [hd.2] } := by
        unfold BatchWriterState.add_check_result
        simp only [List.length_append, List.length_cons, List.length_nil]
        rw [if_neg hlt]
      have htl : ({ st with pending_results := st.pending_results ++ [hd.2] }
            : BatchWriterState).pending_results.length + tl.length
          < ({ st with pending_results := st.pending_results ++ [hd.2] }
            : BatchWriterState).batch_size := by
        simp only [List.length_append, List.length_cons, List.length_nil] at h ⊢
        omega
      calc st.add_all (hd :: tl)
          = (st.add_check_result hd.1 hd.2).add_all tl := rfl
        _ = { st with pending_results := (st.pending_results ++ [hd.2]) ++ tl.map Prod.snd } := by
              rw [hstep, ih _ htl]
        _ = { st with pending_results := st.pending_results ++ (hd :: tl).map Prod.snd } := by
              simp

/-- Claim C7: starting from an empty buffer, enqueuing N results with
N below the batch size performs zero flushes and leaves exactly those N
results buffered; a time tick within the flush interval does nothing; a
subsequent force_flush writes exactly those N results and empties the
buffer. -/
theorem claim7_batch_writer_accumulates (st0 : BatchWriterState)
    (rs : List (ℚ × ResultDict)) (tf : ℚ)
    (h0 : st0.pending_results = [])
    (hN : rs.length < st0.batch_size) :
    (st0.add_all rs).written = st0.written ∧
      (st0.add_all rs).pending_results = rs.map Prod.snd ∧
      (∀ t : ℚ, t - (st0.add_all rs).last_flush < (st0.add_all rs).flush_interval →
        (st0.add_all rs).auto_flush_tick t = st0.add_all rs) ∧
      ((st0.add_all rs).force_flush tf).written.flatten
          = st0.written.flatten ++ rs.map Prod.snd ∧
      ((st0.add_all rs).force_flush tf).pending_results = [] := by
  have hacc : st0.add_all rs
      = { st0 with pending_results := rs.map Prod.snd } := by
    have := add_all_below_threshold rs st0 (by simp [h0]; omega)
    rwa [h0] at this
  rw [hacc]
  refine ⟨rfl, rfl, ?_, ?_, ?_⟩
  · intro t ht
    unfold BatchWriterState.auto_flush_tick
    rw [if_neg]
    intro hcon
    exact absurd hcon.1 (by simpa using not_le.mpr ht)
  · by_cases hrs : rs.map Prod.snd = []
    · unfold BatchWriterState.force_flush
      simp [hrs]
    · unfold BatchWriterState.force_flush BatchWriterState.flush
      simp [hrs]
  · by_cases hrs : rs.map Prod.snd = []
    · unfold BatchWriterState.force_flush
      simp [hrs]
    · unfold BatchWriterState.force_flush BatchWriterState.flush
      simp [hrs]

/-- A concrete check result used in witness theorems. -/
def sampleResult : ResultDict :=
  { success := true
    response_time := 15
    check_type := .ping
    device_id := 7
    timestamp := 1000
    error := none
    status_code := none }

/-- A batch writer in its initial state, as constructed at module load in
performance_service.py (batch size 50, flush interval 2 seconds). -/
def initialWriter : BatchWriterState :=
  { batch_size := 50
    flush_interval := 2
    pending_results := []
    written := []
    last_flush := 0
    total_batches := 0
    total_records := 0 }

/-- Witness for claim C7: one enqueued result on a fresh writer stays
buffered with no flush, and force_flush then writes exactly it. -/
theorem claim7_batch_writer_accumulates_witness :
    initialWriter.pending_results = [] ∧
      ([((1 : ℚ), sampleResult)] : List (ℚ × ResultDict)).length
          < initialWriter.batch_size ∧
      (initialWriter.add_all [((1 : ℚ), sampleResult)]).written
          = initialWriter.written ∧
      (initialWriter.add_all [((1 : ℚ), sampleResult)]).pending_results
        = [sampleResult] ∧
      ((initialWriter.add_all [((1 : ℚ), sampleResult)]).force_flush 3).written.flatten
        = initialWriter.written.flatten ++ [sampleResult] ∧
      ((initialWriter.add_all [((1 : ℚ), sampleResult)]).force_flush 3).pending_results
        = [] := by
  have h := claim7_batch_writer_accumulates initialWriter
    [((1 : ℚ), sampleResult)] 3 rfl (by decide)
  exact ⟨rfl, by decide, h.1, h.2.1, h.2.2.2.1, h.2.2.2.2⟩

/-- The last element (with default) of a nonempty list is a member. -/
theorem getLastD_mem_of_ne_nil (l : List ℚ) (h : l ≠ []) (d : ℚ) :
    l.getLastD d ∈ l := by
  induction l generalizing d with
  | nil => exact absurd rfl h
  | cons a t ih =>
      cases t with
      | nil => simp
      | cons b t2 =>
          rw [List.getLastD_cons]
          exact List.mem_cons_of_mem a (ih (by simp) a)

/-- In a sorted nonempty list, every member is at most the last element,
stated with the head as the getLastD fallback. -/
theorem sorted_le_getLastD_aux (t : List ℚ) :
    ∀ a : ℚ, (a :: t).Sorted (fun x y => x ≤ y) →
      ∀ x ∈ a :: t, x ≤ t.getLastD a := by
  induction t with
  | nil =>
      intro a _ x hx
      rcases List.mem_cons.mp hx with hxa | hxt
      · subst hxa; exact le_refl x
      · simp at hxt
  | cons b t2 ih =>
      intro a hl x hx
      rw [List.getLastD_cons]
      have htail : (b :: t2).Sorted (fun x y => x ≤ y) :=
        (List.sorted_cons.mp hl).2
      rcases List.mem_cons.mp hx with hxa | hxt
      · subst hxa
        have hab : x ≤ b := (List.sorted_cons.mp hl).1 b (by simp)
        have hb : b ≤ t2.getLastD b := ih b htail b (by simp)
        exact le_trans hab hb
      · exact ih b htail x hxt

/-- In a list sorted by the order relation, every member is at most the
last element. -/
theorem sorted_le_getLastD (l : List ℚ)
    (hl : l.Sorted (fun a b => a ≤ b)) :
    ∀ x ∈ l, x ≤ l.getLastD 0 := by
  cases l with
  | nil => intro x hx; simp at hx
  | cons a t =>
      intro x hx
      rw [List.getLastD_cons]
      exact sorted_le_getLastD_aux t a hl x hx

/-- Counterexample to claim C3: on the two-sample window with latencies
1 and 2, the code reports the interpolated median 3 over 2 while the
ceiling-index rule of the specification picks the sample 1. -/
theorem claim3_counterexample :
    (get_percentiles [1, 2]).p50 = 3 / 2 ∧
      specPercentileRule [1, 2] (1 / 2) = 1 ∧
      ¬ (get_percentiles [1, 2]).p50 = specPercentileRule [1, 2] (1 / 2) := by
  have hsorted : List.Sorted (fun a b => a ≤ b) ([1, 2] : List ℚ) := by
    simp [List.sorted_cons]
  have hs : sortedWindow [1, 2] = [1, 2] :=
    List.Sorted.insertionSort_eq hsorted
  have h1 : (get_percentiles [1, 2]).p50 = 3 / 2 := by
    simp only [get_percentiles, hs]
    norm_num [quantileExc, hs]
  have h2 : specPercentileRule [1, 2] (1 / 2) = 1 := by
    simp only [specPercentileRule, hs]
    have hceil : ⌈((([1, 2] : List ℚ).length : ℚ) * (1 / 2))⌉₊ = 1 := by
      norm_num
    simp [hceil]
  refine ⟨h1, h2, ?_⟩
  rw [h1, h2]
  norm_num

/-- Claim C3 as amended: the exposed p50, p95 and p99 equal the values of
the CPython statistics.quantiles exclusive method (median of 2-quantiles,
19th of 20-quantiles, 99th of 100-quantiles on the sorted window), and
when the window has fewer samples than the percentile needs, the last and
largest sample is used (the only sample for p50). -/
theorem claim3_percentiles_amended (times : List ℚ) (h : times ≠ []) :
    ((2 ≤ times.length →
        (get_percentiles times).p50 = quantileExc (sortedWindow times) 2 1) ∧
      (times.length < 2 → (get_percentiles times).p50 ∈ times)) ∧
    ((20 ≤ times.length →
        (get_percentiles times).p95 = quantileExc (sortedWindow times) 20 19) ∧
      (times.length < 20 →
        (get_percentiles times).p95 ∈ times ∧
          ∀ x ∈ times, x ≤ (get_percentiles times).p95)) ∧
    ((100 ≤ times.length →
        (get_percentiles times).p99 = quantileExc (sortedWindow times) 100 99) ∧
      (times.length < 100 →
        (get_percentiles times).p99 ∈ times ∧
          ∀ x ∈ times, x ≤ (get_percentiles times).p99)) := by
  have hne : times.isEmpty = false := by
    cases times with
    | nil => exact absurd rfl h
    | cons a t => rfl
  have hslen : (sortedWindow times).length = times.length :=
    (List.perm_insertionSort (fun a b => a ≤ b) times).length_eq
  have hsne : sortedWindow times ≠ [] := by
    intro hcon
    apply h
    have : (sortedWindow times).length = 0 := by rw [hcon]; rfl
    rw [hslen] at this
    exact List.length_eq_zero.mp this
  have hmem : ∀ x, x ∈ sortedWindow times ↔ x ∈ times := by
    intro x
    exact (List.perm_insertionSort (fun a b => a ≤ b) times).mem_iff
  have hsorted : (sortedWindow times).Sorted (fun a b => a ≤ b) :=
    List.sorted_insertionSort (fun a b => a ≤ b) times
  have hlast_mem : (sortedWindow times).getLastD 0 ∈ times :=
    (hmem _).mp (getLastD_mem_of_ne_nil _ hsne 0)
  have hlast_ub : ∀ x ∈ times, x ≤ (sortedWindow times).getLastD 0 := by
    intro x hx
    exact sorted_le_getLastD _ hsorted x ((hmem x).mpr hx)
  simp only [get_percentiles, hne, Bool.false_eq_true, if_false, hslen]
  refine ⟨⟨fun h2 => by rw [if_pos h2], fun h2 => ?_⟩,
    ⟨fun h20 => by rw [if_pos h20], fun h20 => ?_⟩,
    ⟨fun h100 => by rw [if_pos h100], fun h100 => ?_⟩⟩
  · rw [if_neg (by omega)]
    have h1 : times.length = 1 := by
      have : 0 < times.length := List.length_pos.mpr h
      omega
    obtain ⟨a, ha⟩ := List.length_eq_one.mp h1
    subst ha
    simp [sortedWindow, List.insertionSort, List.orderedInsert]
  · rw [if_neg (by omega)]
    exact ⟨hlast_mem, hlast_ub⟩
  · rw [if_neg (by omega)]
    exact ⟨hlast_mem, hlast_ub⟩

/-- Witness for the amended claim C3: on the window with latencies 5 and
3, p50 is the exclusive median of the sorted window and p95 falls back to
a member of the window. -/
theorem claim3_percentiles_amended_witness :
    ([5, 3] : List ℚ) ≠ [] ∧
      (get_percentiles [5, 3]).p50 = quantileExc (sortedWindow [5, 3]) 2 1 ∧
      (get_percentiles [5, 3]).p95 ∈ ([5, 3] : List ℚ) := by
  refine ⟨by decide, ?_, ?_⟩
  · exact ((claim3_percentiles_amended [5, 3] (by decide)).1).1 (by decide)
  · exact (((claim3_percentiles_amended [5, 3] (by decide)).2.1).2 (by decide)).1

/-- Reading back a key just written returns the written value. -/
theorem alistGet_alistSet_self {α β : Type} [DecidableEq α]
    (l : List (α × β)) (k : α) (v : β) :
    alistGet (alistSet l k v) k = some v := by
  induction l with
  | nil => simp [alistGet, alistSet]
  | cons hd t ih =>
      obtain ⟨a, b⟩ := hd
      by_cases hak : a = k <;> simp [alistSet, alistGet, hak, ih]

/-- Writing the same key twice keeps only the second value. -/
theorem alistSet_alistSet_self {α β : Type} [DecidableEq α]
    (l : List (α × β)) (k : α) (v w : β) :
    alistSet (alistSet l k v) k w = alistSet l k w := by
  induction l with
  | nil => simp [alistSet]
  | cons hd t ih =>
      obtain ⟨a, b⟩ := hd
      by_cases hak : a = k <;> simp [alistSet, hak, ih]

/-- The check kinds of the tasks scheduled for one device are pairwise
distinct: one task per enabled kind. -/
theorem schedule_device_checks_kinds_nodup (d : Device) :
    ((schedule_device_checks d).map (fun t => t.check_type)).Nodup := by
  unfold schedule_device_checks
  split_ifs <;> simp

/-- A list of tasks with pairwise distinct check kinds holds at most one
task of each kind. -/
theorem countP_check_type_le_one (l : List CheckTask)
    (h : (l.map (fun t => t.check_type)).Nodup) (ct : CheckType) :
    l.countP (fun t => t.check_type == ct) ≤ 1 := by
  induction l with
  | nil => simp
  | cons hd tl ih =>
      rw [List.map_cons, List.nodup_cons] at h
      rw [List.countP_cons]
      by_cases hp : hd.check_type = ct
      · have hzero : tl.countP (fun t => t.check_type == ct) = 0 := by
          rw [List.countP_eq_zero]
          intro t ht hcon
          have hteq : t.check_type = ct := by simpa using hcon
          apply h.1
          rw [List.mem_map]
          exact ⟨t, ht, by rw [hteq, hp]⟩
        simp [hzero, hp]
      · have hfalse : (hd.check_type == ct) = false := by simpa using hp
        simpa [hfalse] using ih h.2

/-- One scheduler pass enqueues for a device either nothing or exactly
the list of its enabled checks. -/
theorem scheduler_tick_device_output (lct : List (Nat × Int)) (now : Int)
    (d : Device) :
    (scheduler_tick_device lct now d).1 = [] ∨
      (scheduler_tick_device lct now d).1 = schedule_device_checks d := by
  unfold scheduler_tick_device
  by_cases hen : d.enabled = true
  · rcases halist : alistGet lct d.id with _ | last
    · simp [hen, halist]
    · by_cases hdue : d.check_interval ≤ now - last <;>
        simp [hen, halist, hdue]
  · simp [hen]

/-- Claim C8: two force_immediate_check calls in a row collapse to one
(the map of last check times ends identical), and the next scheduler pass
enqueues at most one task per check kind for any device. -/
theorem claim8_force_immediate_check_idempotent (lct : List (Nat × Int))
    (device_id : Nat) (t1 t2 : Int) :
    force_immediate_check (force_immediate_check lct device_id t1) device_id t2
        = force_immediate_check lct device_id t2 ∧
      ∀ (d : Device) (now : Int) (ct : CheckType),
        ((scheduler_tick_device
            (force_immediate_check (force_immediate_check lct device_id t1)
              device_id t2)
            now d).1.countP (fun task => task.check_type == ct)) ≤ 1 := by
  constructor
  · unfold force_immediate_check
    rcases hget : alistGet lct device_id with _ | v
    · simp [hget]
    · simp [hget, alistGet_alistSet_self, alistSet_alistSet_self]
  · intro d now ct
    rcases scheduler_tick_device_output
        (force_immediate_check (force_immediate_check lct device_id t1)
          device_id t2) now d with hout | hout
    · simp [hout]
    · rw [hout]
      exact countP_check_type_le_one _ (schedule_device_checks_kinds_nodup d) ct

/-- Claim C9: execute_check is total (it never propagates an exception),
always stamps the result with the task device id, check kind and a
timestamp, and turns both a missing registered probe and a probe
exception into a failed result with an error message. -/
theorem claim9_execute_check_contains_errors
    (services : CheckType → Option (Device → ProbeOutcome))
    (env : ExecEnv) (task : CheckTask)
    (herr : services task.check_type = none ∨
      ∃ svc msg, services task.check_type = some svc ∧
        svc task.device = ProbeOutcome.exn msg) :
    (execute_check services env task).success = false ∧
      (execute_check services env task).error.isSome = true ∧
      (execute_check services env task).device_id = task.device.id ∧
      (execute_check services env task).check_type = task.check_type ∧
      (execute_check services env task).timestamp = env.now := by
  rcases herr with hnone | ⟨svc, msg, hsvc, hexn⟩
  · simp [execute_check, hnone]
  · simp [execute_check, hsvc, hexn]

/-- Witness for claim C9: with no probe registered at all, the ping check
of the sample device yields a failed, fully attributed result. -/
theorem claim9_execute_check_contains_errors_witness :
    (execute_check (fun _ => none) ⟨1000, 5⟩ ⟨sampleDevice, .ping, 5⟩).success
        = false ∧
      (execute_check (fun _ => none) ⟨1000, 5⟩
          ⟨sampleDevice, .ping, 5⟩).error.isSome = true ∧
      (execute_check (fun _ => none) ⟨1000, 5⟩
          ⟨sampleDevice, .ping, 5⟩).device_id = sampleDevice.id ∧
      (execute_check (fun _ => none) ⟨1000, 5⟩
          ⟨sampleDevice, .ping, 5⟩).check_type = CheckType.ping ∧
      (execute_check (fun _ => none) ⟨1000, 5⟩
          ⟨sampleDevice, .ping, 5⟩).timestamp = 1000 :=
  claim9_execute_check_contains_errors (fun _ => none) ⟨1000, 5⟩
    ⟨sampleDevice, .ping, 5⟩ (Or.inl rfl)

/-- A single invocation of the recovery path calls the collaborator at
most once. -/
theorem attempt_auto_recovery_calls_le_one (env : RecoveryEnv)
    (st : EngineState) (d : Device) :
    ((attempt_auto_recovery env st d).2.2).length ≤ 1 := by
  simp only [attempt_auto_recovery]
  split_ifs <;> simp

/-- Under an active cooldown the recovery path returns immediately with
no state change and no collaborator call. -/
theorem attempt_auto_recovery_skip (env : RecoveryEnv) (st : EngineState)
    (d : Device)
    (h : recovery_cooldown_ok st.recovery_attempts d.ip_address env.now = false) :
    attempt_auto_recovery env st d = (st, d, []) := by
  simp [attempt_auto_recovery, h]

/-- When the cooldown check passes, the recovery path records the attempt
time for the device IP and makes exactly one collaborator call. -/
theorem attempt_auto_recovery_proceed (env : RecoveryEnv) (st : EngineState)
    (d : Device)
    (h : recovery_cooldown_ok st.recovery_attempts d.ip_address env.now = true) :
    (attempt_auto_recovery env st d).1.recovery_attempts
        = alistSet st.recovery_attempts d.ip_address env.now ∧
      ((attempt_auto_recovery env st d).2.2).length = 1 := by
  by_cases hs : (env.attempt_recovery d.ip_address d.name).1 = true <;>
    simp [attempt_auto_recovery, h, hs]

/-- Claim C4: two recovery invocations for the same device IP less than
300 seconds apart make at most one collaborator call in total (the
check-cooldown and record-attempt are modelled inside the one guarded
state update, as serialized by the recovery lock). -/
theorem claim4_cooldown_single_recovery (env1 env2 : RecoveryEnv)
    (st : EngineState) (d1 d2 : Device)
    (hip : d2.ip_address = d1.ip_address)
    (hclose : env2.now - env1.now < 300) :
    ((attempt_auto_recovery env1 st d1).2.2).length +
      ((attempt_auto_recovery env2 (attempt_auto_recovery env1 st d1).1
          d2).2.2).length ≤ 1 := by
  by_cases h1 : recovery_cooldown_ok st.recovery_attempts d1.ip_address env1.now
      = true
  · obtain ⟨hatt, hlen⟩ := attempt_auto_recovery_proceed env1 st d1 h1
    have hcool2 : recovery_cooldown_ok
        (attempt_auto_recovery env1 st d1).1.recovery_attempts d2.ip_address
        env2.now = false := by
      rw [hatt, hip]
      unfold recovery_cooldown_ok
      rw [alistGet_alistSet_self]
      simp only [decide_eq_false_iff_not]
      omega
    rw [attempt_auto_recovery_skip env2 _ d2 hcool2, hlen]
    simp
  · rw [attempt_auto_recovery_skip env1 st d1 (by simpa using h1)]
    simpa using attempt_auto_recovery_calls_le_one env2 st d2

/-- A recovery environment whose collaborator always reports success. -/
def sampleRecoveryEnv : RecoveryEnv :=
  { now := 1000
    wall := 0
    recovery_configured := true
    attempt_recovery := fun _ _ => (true, "rebooted") }

/-- The same collaborator a hundred seconds later. -/
def sampleRecoveryEnvLater : RecoveryEnv :=
  { sampleRecoveryEnv with now := 1100 }

/-- A fresh engine state as built by the MonitoringEngine constructor. -/
def initialEngineState : EngineState :=
  { statistics := ⟨0, 0, 0⟩
    recovery_attempts := []
    timers := []
    batch := initialWriter }

/-- Witness for claim C4: two recovery invocations 100 seconds apart on
the sample device make at most one collaborator call together. -/
theorem claim4_cooldown_single_recovery_witness :
    sampleDevice.ip_address = sampleDevice.ip_address ∧
      sampleRecoveryEnvLater.now - sampleRecoveryEnv.now < 300 ∧
      ((attempt_auto_recovery sampleRecoveryEnv initialEngineState
          sampleDevice).2.2).length +
        ((attempt_auto_recovery sampleRecoveryEnvLater
            (attempt_auto_recovery sampleRecoveryEnv initialEngineState
              sampleDevice).1
            sampleDevice).2.2).length ≤ 1 :=
  ⟨rfl, by decide,
    claim4_cooldown_single_recovery sampleRecoveryEnv sampleRecoveryEnvLater
      initialEngineState sampleDevice sampleDevice rfl (by decide)⟩

/-- Claim C5: when the cooldown passes and the collaborator reports
success, exactly one 30 second re-check timer for the device is appended
to the tracked timers, firing it performs force_immediate_check on that
device id, requires_manual_intervention is false after the attempt, and
the collaborator was called exactly once. -/
theorem claim5_recovery_success_schedules_recheck (env : RecoveryEnv)
    (st : EngineState) (d : Device)
    (hcool : recovery_cooldown_ok st.recovery_attempts d.ip_address env.now
      = true)
    (hsucc : (env.attempt_recovery d.ip_address d.name).1 = true) :
    (attempt_auto_recovery env st d).1.timers
        = st.timers ++ [⟨30, TimerAction.force_check d.id⟩] ∧
      (attempt_auto_recovery env st d).2.1.requires_manual_intervention
        = false ∧
      ((attempt_auto_recovery env st d).2.2).length = 1 ∧
      (∀ (lct : List (Nat × Int)) (now : Int),
        (TimerAction.force_check d.id).run lct now
          = force_immediate_check lct d.id now) := by
  refine ⟨?_, ?_, ?_, fun lct now => rfl⟩ <;>
    simp [attempt_auto_recovery, hcool, hsucc]

/-- Witness for claim C5: on a fresh engine state the successful sample
recovery schedules the single 30 second re-check for the sample device
and leaves requires_manual_intervention false. -/
theorem claim5_recovery_success_schedules_recheck_witness :
    recovery_cooldown_ok initialEngineState.recovery_attempts
        sampleDevice.ip_address sampleRecoveryEnv.now = true ∧
      (sampleRecoveryEnv.attempt_recovery sampleDevice.ip_address
          sampleDevice.name).1 = true ∧
      (attempt_auto_recovery sampleRecoveryEnv initialEngineState
          sampleDevice).1.timers
        = initialEngineState.timers
            ++ [⟨30, TimerAction.force_check sampleDevice.id⟩] ∧
      (attempt_auto_recovery sampleRecoveryEnv initialEngineState
          sampleDevice).2.1.requires_manual_intervention = false := by
  have h := claim5_recovery_success_schedules_recheck sampleRecoveryEnv
    initialEngineState sampleDevice rfl rfl
  exact ⟨rfl, rfl, h.1, h.2.1⟩

/-- The fields written by finalize_device: total_checks is bumped by one,
exactly one of the success and failure counters is bumped according to
the result, and uptime_percentage is recomputed as the success ratio. -/
theorem finalize_device_fields (ns : DevStatus) (result : ResultDict)
    (d2 : Device) :
    (finalize_device ns result d2).total_checks = d2.total_checks + 1 ∧
      (finalize_device ns result d2).successful_checks
        = (if result.success then d2.successful_checks + 1
            else d2.successful_checks) ∧
      (finalize_device ns result d2).failed_checks
        = (if result.success then d2.failed_checks else d2.failed_checks + 1) ∧
      (finalize_device ns result d2).uptime_percentage
        = ((finalize_device ns result d2).successful_checks : ℚ)
            / ((finalize_device ns result d2).total_checks : ℚ) * 100 := by
  simp only [finalize_device]
  split_ifs <;> simp_all

/-- The recovery path never touches the statistics dict nor the device
check counters. -/
theorem attempt_auto_recovery_preserves_counters (env : RecoveryEnv)
    (st : EngineState) (d : Device) :
    (attempt_auto_recovery env st d).1.statistics = st.statistics ∧
      (attempt_auto_recovery env st d).2.1.total_checks = d.total_checks ∧
      (attempt_auto_recovery env st d).2.1.successful_checks
        = d.successful_checks ∧
      (attempt_auto_recovery env st d).2.1.failed_checks = d.failed_checks := by
  simp only [attempt_auto_recovery]
  split_ifs <;> simp

/-- Status change handling never touches the statistics dict nor the
device check counters. -/
theorem handle_status_change_preserves_counters (env : RecoveryEnv)
    (st : EngineState) (d : Device) (old_status : Option DevStatus)
    (new_status : DevStatus) :
    (handle_status_change env st d old_status new_status).1.statistics
        = st.statistics ∧
      (handle_status_change env st d old_status new_status).2.1.total_checks
        = d.total_checks ∧
      (handle_status_change env st d old_status
          new_status).2.1.successful_checks = d.successful_checks ∧
      (handle_status_change env st d old_status new_status).2.1.failed_checks
        = d.failed_checks := by
  simp only [handle_status_change]
  split_ifs
  · exact attempt_auto_recovery_preserves_counters env st
      { d with last_status_change := some env.now }
  all_goals simp

/-- The status comparison step never touches the statistics dict nor the
device check counters. -/
theorem status_change_step_preserves_counters (env : RecoveryEnv)
    (st : EngineState) (d : Device) :
    (status_change_step env st d).1.statistics = st.statistics ∧
      (status_change_step env st d).2.1.total_checks = d.total_checks ∧
      (status_change_step env st d).2.1.successful_checks
        = d.successful_checks ∧
      (status_change_step env st d).2.1.failed_checks = d.failed_checks := by
  simp only [status_change_step]
  split_ifs
  · exact handle_status_change_preserves_counters env st d d.current_status
      (determine_device_status d)
  · simp

/-- Updating ping or web status leaves the check counters unchanged. -/
theorem update_check_statuses_preserves_counters (d : Device)
    (result : ResultDict) :
    (update_check_statuses d result).total_checks = d.total_checks ∧
      (update_check_statuses d result).successful_checks
        = d.successful_checks ∧
      (update_check_statuses d result).failed_checks = d.failed_checks := by
  unfold update_check_statuses
  cases result.check_type <;> simp

/-- Claim C6: after every processed check result, uptime_percentage on
the device equals successful_checks over total_checks times 100, and the
zero-total case (which would read 100) cannot arise since total_checks
was just incremented. -/
theorem claim6_uptime_ratio (env : RecoveryEnv) (st : EngineState)
    (met : MetricsState) (device : Device) (result : ResultDict) :
    ((process_check_result env st met device result).2.2.1).uptime_percentage
        = (((process_check_result env st met device
              result).2.2.1).successful_checks : ℚ)
          / (((process_check_result env st met device
              result).2.2.1).total_checks : ℚ) * 100 ∧
      (((process_check_result env st met device result).2.2.1).total_checks = 0
        → ((process_check_result env st met device
            result).2.2.1).uptime_percentage = 100) := by
  obtain ⟨d2, hd2⟩ :
      ∃ d2, (process_check_result env st met device result).2.2.1
        = finalize_device
            (determine_device_status (update_check_statuses device result))
            result d2 := ⟨_, rfl⟩
  rw [hd2]
  have hf := finalize_device_fields
    (determine_device_status (update_check_statuses device result)) result d2
  refine ⟨hf.2.2.2, fun h0 => ?_⟩
  rw [hf.1] at h0
  exact absurd h0 (by omega)

/-- Claim C10: result processing bumps total_checks by one and exactly
one of the success or failure counters on both the device and the engine
statistics, so the invariant total equals successes plus failures is
preserved on both. -/
theorem claim10_counters_consistent (env : RecoveryEnv) (st : EngineState)
    (met : MetricsState) (device : Device) (result : ResultDict)
    (hdev : device.total_checks
      = device.successful_checks + device.failed_checks)
    (hstats : st.statistics.total_checks
      = st.statistics.successful_checks + st.statistics.failed_checks) :
    ((process_check_result env st met device result).2.2.1).total_checks
        = device.total_checks + 1 ∧
      ((process_check_result env st met device result).2.2.1).total_checks
        = ((process_check_result env st met device
              result).2.2.1).successful_checks
          + ((process_check_result env st met device
              result).2.2.1).failed_checks ∧
      (result.success = true →
        ((process_check_result env st met device
            result).2.2.1).successful_checks
          = device.successful_checks + 1 ∧
        ((process_check_result env st met device result).2.2.1).failed_checks
          = device.failed_checks) ∧
      (result.success = false →
        ((process_check_result env st met device result).2.2.1).failed_checks
          = device.failed_checks + 1 ∧
        ((process_check_result env st met device
            result).2.2.1).successful_checks = device.successful_checks) ∧
      ((process_check_result env st met device
          result).1).statistics.total_checks
        = st.statistics.total_checks + 1 ∧
      ((process_check_result env st met device
          result).1).statistics.total_checks
        = ((process_check_result env st met device
            result).1).statistics.successful_checks
          + ((process_check_result env st met device
              result).1).statistics.failed_checks := by
  have hup := update_check_statuses_preserves_counters device result
  have hstep := status_change_step_preserves_counters env
    { st with
        statistics := updated_statistics st.statistics result.success
        batch := st.batch.add_check_result env.wall result }
    (update_check_statuses device result)
  have hfin := finalize_device_fields
    (determine_device_status (update_check_statuses device result)) result
    ((status_change_step env
      { st with
          statistics := updated_statistics st.statistics result.success
          batch := st.batch.add_check_result env.wall result }
      (update_check_statuses device result)).2.1)
  have hdev_eq : (process_check_result env st met device result).2.2.1
      = finalize_device
          (determine_device_status (update_check_statuses device result))
          result
          ((status_change_step env
            { st with
                statistics := updated_statistics st.statistics result.success
                batch := st.batch.add_check_result env.wall result }
            (update_check_statuses device result)).2.1) := rfl
  have hst_eq : (process_check_result env st met device result).1
      = (status_change_step env
          { st with
              statistics := updated_statistics st.statistics result.success
              batch := st.batch.add_check_result env.wall result }
          (update_check_statuses device result)).1 := rfl
  rw [hdev_eq, hst_eq]
  rw [hstep.1]
  refine ⟨?_, ?_, ?_, ?_, ?_, ?_⟩
  · rw [hfin.1, hstep.2.1, hup.1]
  · rw [hfin.1, hfin.2.1, hfin.2.2.1, hstep.2.1, hstep.2.2.1, hstep.2.2.2,
      hup.1, hup.2.1, hup.2.2]
    cases hres : result.success <;> simp <;> omega
  · intro hres
    rw [hfin.2.1, hfin.2.2.1, hstep.2.2.1, hstep.2.2.2, hup.2.1, hup.2.2, hres]
    simp
  · intro hres
    rw [hfin.2.1, hfin.2.2.1, hstep.2.2.1, hstep.2.2.2, hup.2.1, hup.2.2, hres]
    simp
  · cases hres : result.success <;> simp [updated_statistics, hres]
  · cases hres : result.success <;> simp [updated_statistics, hres] <;> omega

/-- A fresh metrics collector as built at module load. -/
def initialMetrics : MetricsState :=
  { window_size := 1000
    response_times := []
    check_counts := []
    success_counts := [] }

/-- Witness for claim C10: processing the sample successful ping result
on the sample device (whose counters 10, 9, 1 are consistent) and a
fresh engine state yields consistent incremented counters. -/
theorem claim10_counters_consistent_witness :
    sampleDevice.total_checks
        = sampleDevice.successful_checks + sampleDevice.failed_checks ∧
      initialEngineState.statistics.total_checks
        = initialEngineState.statistics.successful_checks
          + initialEngineState.statistics.failed_checks ∧
      ((process_check_result sampleRecoveryEnv initialEngineState
          initialMetrics sampleDevice sampleResult).2.2.1).total_checks
        = sampleDevice.total_checks + 1 := by
  have h := claim10_counters_consistent sampleRecoveryEnv initialEngineState
    initialMetrics sampleDevice sampleResult (by decide) (by decide)
  exact ⟨by decide, by decide, h.1⟩

end Pingmonitor
